import Mathlib

/-!
Verification of the retirement drawdown projection engine.

This file is a shallow embedding, over exact rationals, of the projection
engine `runProjection` (and its companion `validateInputs`) from
`src/script.js` of the Projections repository.  JavaScript numbers are
modelled as `ℚ`; every arithmetic step of the source is mirrored exactly.

Notes on fidelity:
* The source record also stores `year: currentYear + year` where
  `currentYear` comes from `new Date()`; that field is environment
  dependent (not part of the pure computation) and list position already
  determines the relative year index, so the embedded record omits it.
* The source's active-path record stores `income: totalIncome` while the
  depleted-path record has no `income` key; since `totalIncome` is a
  constant of the inputs, the embedded record omits it as well.
* The unused local `const netAmount = withdrawal - taxes` in the source is
  dead code and is not reproduced.
-/

/-- The parameter set assembled by `getInputValues` in `src/script.js`
(lines 220-241), after the percentage-to-fraction division there.
`projectionYears` is produced by `parseInt`, hence an integer. -/
structure Inputs where
  rateOfReturn : ℚ
  inflationRate : ℚ
  yearlySpend : ℚ
  addedSpend : ℚ
  effectiveTaxRate : ℚ
  startingTaxDeferred : ℚ
  startingRoth : ℚ
  startingTaxable : ℚ
  projectionYears : ℤ
  pensionIncome : ℚ
  annuityIncome : ℚ
  socialSecurity : ℚ
deriving DecidableEq

/-- One record pushed onto `data` by `runProjection` (`src/script.js`
lines 366-377 and 439-451), in the source's field order; see the module
comment for the two omitted environment/constant fields. -/
structure YearRec where
  withdrawal : ℚ
  taxes : ℚ
  netSpending : ℚ
  taxDeferredBalance : ℚ
  rothBalance : ℚ
  taxableBalance : ℚ
  totalBalance : ℚ
  percentWithdrawn : ℚ
  monthlyNet : ℚ
deriving DecidableEq

/-- The mutable loop state of `runProjection`: the three account balances
and `currentSpending` (`src/script.js` lines 344-348). -/
structure EngineState where
  taxDeferredBalance : ℚ
  rothBalance : ℚ
  taxableBalance : ℚ
  currentSpending : ℚ
deriving DecidableEq

/-- Result of the withdrawal block (`src/script.js` lines 387-428): the
post-withdrawal balances, the amount drawn from each account (ghost
instrumentation of the three local `withdrawal` constants, one per
`if`-block), and the two running accumulators. -/
structure WdResult where
  taxDeferredBalance : ℚ
  rothBalance : ℚ
  taxableBalance : ℚ
  wTaxDeferred : ℚ
  wRoth : ℚ
  wTaxable : ℚ
  totalWithdrawal : ℚ
  totalTaxes : ℚ
deriving DecidableEq

/-- Amount drawn by the tax-deferred block, `if (taxDeferredBalance > 0)`
(`src/script.js` lines 398-407): `Math.min(remainingNeeded, taxDeferredBalance)`
when the block is entered, 0 otherwise. -/
def wdTaxDeferredAmount (need td : ℚ) : ℚ :=
  if 0 < td then min need td else 0

/-- `remainingNeeded` after the tax-deferred block: the block sets it to 0
unconditionally (`src/script.js` line 406), even when the draw only
partially covers the need. -/
def remAfterTaxDeferred (need td : ℚ) : ℚ :=
  if 0 < td then 0 else need

/-- Amount drawn by the Roth block,
`if (remainingNeeded > 0 && rothBalance > 0)` (`src/script.js`
lines 410-415). -/
def wdRothAmount (rem roth : ℚ) : ℚ :=
  if 0 < rem ∧ 0 < roth then min rem roth else 0

/-- Amount drawn by the taxable block,
`if (remainingNeeded > 0 && taxableBalance > 0)` (`src/script.js`
lines 418-427). -/
def wdTaxableAmount (rem txb : ℚ) : ℚ :=
  if 0 < rem ∧ 0 < txb then min rem txb else 0

/-- The ordered withdrawal block of `runProjection` (`src/script.js`
lines 392-428).  Outer guard `totalAvailable >= remainingNeeded`; then
tax-deferred first (tax at `effectiveTaxRate`), then Roth (untaxed),
then taxable (15% flat tax). -/
def withdrawPhase (effectiveTaxRate need td roth txb : ℚ) : WdResult :=
  if need ≤ td + roth + txb then
    let wTd := wdTaxDeferredAmount need td
    let rem1 := remAfterTaxDeferred need td
    let wRo := wdRothAmount rem1 roth
    let rem2 := rem1 - wRo
    let wTx := wdTaxableAmount rem2 txb
    ⟨td - wTd, roth - wRo, txb - wTx, wTd, wRo, wTx,
      wTd + wRo + wTx, wTd * effectiveTaxRate + wTx * (15 / 100)⟩
  else
    ⟨td, roth, txb, 0, 0, 0, 0, 0⟩

/-- `currentSpending` after the inflation update at the top of the loop
body (`src/script.js` lines 353-356). -/
def updatedSpending (inp : Inputs) (year : ℕ) (st : EngineState) : ℚ :=
  if 0 < year then st.currentSpending * (1 + inp.inflationRate)
  else st.currentSpending

/-- `totalSpendingThisYear` (`src/script.js` line 359): the one-time
`addedSpend` is included only in year 0. -/
def totalSpendingThisYear (inp : Inputs) (year : ℕ) (st : EngineState) : ℚ :=
  if year = 0 then updatedSpending inp year st + inp.addedSpend
  else updatedSpending inp year st

/-- `totalIncome` (`src/script.js` line 382). -/
def totalIncome (inp : Inputs) : ℚ :=
  inp.pensionIncome + inp.annuityIncome + inp.socialSecurity

/-- `netSpending` need (`src/script.js` line 385): the spending target
net of external income, floored at 0. -/
def netSpendingNeed (inp : Inputs) (year : ℕ) (st : EngineState) : ℚ :=
  max 0 (totalSpendingThisYear inp year st - totalIncome inp)

/-- The all-zero record pushed on the depleted path
(`src/script.js` lines 366-377). -/
def zeroRec : YearRec := ⟨0, 0, 0, 0, 0, 0, 0, 0, 0⟩

/-- One iteration of the `runProjection` loop body (`src/script.js`
lines 350-452): inflation update, depletion check (`continue` keeps the
balances untouched — growth is NOT applied on that path), withdrawal
phase, growth, record construction. -/
def step (inp : Inputs) (year : ℕ) (st : EngineState) : YearRec × EngineState :=
  let spending := updatedSpending inp year st
  let totalBalance :=
    st.taxDeferredBalance + st.rothBalance + st.taxableBalance
  if totalBalance ≤ 0 then
    (zeroRec,
     ⟨st.taxDeferredBalance, st.rothBalance, st.taxableBalance, spending⟩)
  else
    let wd := withdrawPhase inp.effectiveTaxRate
      (netSpendingNeed inp year st)
      st.taxDeferredBalance st.rothBalance st.taxableBalance
    let netSpendingAmount :=
      wd.totalWithdrawal - wd.totalTaxes + totalIncome inp
    let percentWithdrawn :=
      if 0 < totalBalance then wd.totalWithdrawal / totalBalance * 100 else 0
    let td1 := wd.taxDeferredBalance * (1 + inp.rateOfReturn)
    let ro1 := wd.rothBalance * (1 + inp.rateOfReturn)
    let tx1 := wd.taxableBalance * (1 + inp.rateOfReturn)
    (⟨wd.totalWithdrawal, wd.totalTaxes, netSpendingAmount,
       td1, ro1, tx1, td1 + ro1 + tx1, percentWithdrawn,
       netSpendingAmount / 12⟩,
     ⟨td1, ro1, tx1, spending⟩)

/-- The initial loop state (`src/script.js` lines 344-348). -/
def initState (inp : Inputs) : EngineState :=
  ⟨inp.startingTaxDeferred, inp.startingRoth, inp.startingTaxable,
    inp.yearlySpend⟩

/-- Runs `fuel` consecutive loop iterations starting at index `year`. -/
def runFrom (inp : Inputs) : ℕ → ℕ → EngineState → List YearRec
  | _, 0, _ => []
  | year, fuel + 1, st =>
      let p := step inp year st
      p.1 :: runFrom inp (year + 1) fuel p.2

/-- `runProjection` (`src/script.js` lines 340-455): the loop
`for (let year = 0; year < inputs.projectionYears; year++)` runs
`projectionYears` times (zero times when that integer is ≤ 0). -/
def runProjection (inp : Inputs) : List YearRec :=
  runFrom inp 0 inp.projectionYears.toNat (initState inp)

/-- The loop state at the start of iteration `year` (before that
iteration's inflation update and withdrawal). -/
def stateAt (inp : Inputs) : ℕ → EngineState
  | 0 => initState inp
  | year + 1 => (step inp year (stateAt inp year)).2

/-- The sum of the three account balances at the start of year `year`,
before that year's withdrawal (the spec's `beginningTotalBalance`). -/
def beginningTotalBalance (inp : Inputs) (year : ℕ) : ℚ :=
  (stateAt inp year).taxDeferredBalance + (stateAt inp year).rothBalance
    + (stateAt inp year).taxableBalance

/-- `validateInputs` (`src/script.js` lines 243-272): builds the list of
error messages in source order; it is defined in the source but never
invoked on the path into `runProjection`. -/
def validateInputs (inp : Inputs) : List String :=
  (if inp.rateOfReturn < 0 ∨ 1 / 2 < inp.rateOfReturn then
    ["Rate of return should be between 0% and 50%"] else [])
  ++ (if inp.inflationRate < 0 ∨ 1 / 5 < inp.inflationRate then
    ["Inflation rate should be between 0% and 20%"] else [])
  ++ (if inp.yearlySpend ≤ 0 then
    ["Yearly spending must be greater than 0"] else [])
  ++ (if inp.effectiveTaxRate < 0 ∨ 1 / 2 < inp.effectiveTaxRate then
    ["Tax rate should be between 0% and 50%"] else [])
  ++ (if inp.startingTaxDeferred + inp.startingRoth + inp.startingTaxable ≤ 0
    then ["Total starting balance must be greater than 0"] else [])
  ++ (if inp.projectionYears < 1 ∨ 50 < inp.projectionYears then
    ["Projection years should be between 1 and 50"] else [])

/-- The spec's §3/§4 validity preconditions on a parameter set, used as
the hypothesis of the "for every valid parameter set" claims. -/
def ValidInputs (inp : Inputs) : Prop :=
  0 ≤ inp.rateOfReturn ∧ inp.rateOfReturn ≤ 1 / 2 ∧
  0 ≤ inp.inflationRate ∧ inp.inflationRate ≤ 1 / 5 ∧
  0 < inp.yearlySpend ∧ 0 ≤ inp.addedSpend ∧
  0 ≤ inp.effectiveTaxRate ∧ inp.effectiveTaxRate ≤ 1 / 2 ∧
  0 ≤ inp.startingTaxDeferred ∧ 0 ≤ inp.startingRoth ∧
  0 ≤ inp.startingTaxable ∧
  0 < inp.startingTaxDeferred + inp.startingRoth + inp.startingTaxable ∧
  1 ≤ inp.projectionYears ∧ inp.projectionYears ≤ 50 ∧
  0 ≤ inp.pensionIncome ∧ 0 ≤ inp.annuityIncome ∧ 0 ≤ inp.socialSecurity

instance (inp : Inputs) : Decidable (ValidInputs inp) := by
  unfold ValidInputs; infer_instance

/-- Nonnegativity of the three account balances of a loop state. -/
def NonnegBalances (st : EngineState) : Prop :=
  0 ≤ st.taxDeferredBalance ∧ 0 ≤ st.rothBalance ∧ 0 ≤ st.taxableBalance

/-- The spec's concrete zero-income single-account scenario:
return 0, inflation 0, spend 40000, tax 13%, tax-deferred 1000000,
one projection year. -/
def c5Input : Inputs :=
  ⟨0, 0, 40000, 0, 13 / 100, 1000000, 0, 0, 1, 0, 0, 0⟩

/-- An input `validateInputs` rejects: every starting balance is 0,
so the balances sum to 0; two projection years requested. -/
def c1BadInput : Inputs :=
  ⟨0, 0, 40000, 0, 13 / 100, 0, 0, 0, 2, 0, 0, 0⟩

/-- A valid input whose single account is drained exactly in year 0
(spend 40000 against a 40000 balance at 0% return), so year 1 onward is
depleted. -/
def depleteInput : Inputs :=
  ⟨0, 0, 40000, 0, 13 / 100, 40000, 0, 0, 3, 0, 0, 0⟩

/-- A valid input whose balance (10000) is below the first-year need
(50000), exercising the no-partial-withdrawal branch; 10% return. -/
def shortInput : Inputs :=
  ⟨1 / 10, 0, 50000, 0, 13 / 100, 10000, 0, 0, 2, 0, 0, 0⟩

/-- A valid input with money in all three accounts, used to exercise the
withdrawal ordering at a concrete state. -/
def threeAcctInput : Inputs :=
  ⟨1 / 20, 3 / 100, 30000, 0, 22 / 100, 20000, 15000, 25000, 10, 0, 0, 0⟩

section Helpers

lemma runFrom_length (inp : Inputs) (year fuel : ℕ) (st : EngineState) :
    (runFrom inp year fuel st).length = fuel := by
  induction fuel generalizing year st with
  | zero => rfl
  | succ n ih => simp [runFrom, ih]

lemma runProjection_length (inp : Inputs) :
    (runProjection inp).length = inp.projectionYears.toNat := by
  unfold runProjection
  exact runFrom_length inp 0 _ _

lemma runFrom_getElemQ (inp : Inputs) :
    ∀ (fuel year i : ℕ), i < fuel →
      (runFrom inp year fuel (stateAt inp year))[i]?
        = some (step inp (year + i) (stateAt inp (year + i))).1 := by
  intro fuel
  induction fuel with
  | zero => intro year i h; exact absurd h (Nat.not_lt_zero i)
  | succ n ih =>
    intro year i h
    cases i with
    | zero => simp [runFrom]
    | succ k =>
      have hst : (step inp year (stateAt inp year)).2 = stateAt inp (year + 1) :=
        rfl
      have h1 : (runFrom inp year (n + 1) (stateAt inp year))[k + 1]?
          = (runFrom inp (year + 1) n (stateAt inp (year + 1)))[k]? := by
        simp [runFrom, hst]
      rw [h1, ih (year + 1) k (Nat.lt_of_succ_lt_succ h)]
      rw [show year + 1 + k = year + (k + 1) from by omega]

lemma runProjection_getElem (inp : Inputs) (i : ℕ)
    (hi : i < (runProjection inp).length) :
    (runProjection inp)[i] = (step inp i (stateAt inp i)).1 := by
  have h' : i < inp.projectionYears.toNat := by
    rwa [runProjection_length] at hi
  rw [List.getElem_eq_iff]
  have h2 := runFrom_getElemQ inp inp.projectionYears.toNat 0 i h'
  simpa [runProjection, stateAt] using h2

lemma wdTaxDeferredAmount_nonneg (need td : ℚ) (hn : 0 ≤ need) :
    0 ≤ wdTaxDeferredAmount need td := by
  unfold wdTaxDeferredAmount
  split_ifs with h
  · exact le_min hn h.le
  · exact le_refl 0

lemma wdTaxDeferredAmount_le (need td : ℚ) (ht : 0 ≤ td) :
    wdTaxDeferredAmount need td ≤ td := by
  unfold wdTaxDeferredAmount
  split_ifs with h
  · exact min_le_right _ _
  · exact ht

lemma wdRothAmount_nonneg (rem roth : ℚ) : 0 ≤ wdRothAmount rem roth := by
  unfold wdRothAmount
  split_ifs with h
  · exact le_min h.1.le h.2.le
  · exact le_refl 0

lemma wdRothAmount_le (rem roth : ℚ) (hr : 0 ≤ roth) :
    wdRothAmount rem roth ≤ roth := by
  unfold wdRothAmount
  split_ifs with h
  · exact min_le_right _ _
  · exact hr

lemma wdTaxableAmount_nonneg (rem txb : ℚ) : 0 ≤ wdTaxableAmount rem txb := by
  unfold wdTaxableAmount
  split_ifs with h
  · exact le_min h.1.le h.2.le
  · exact le_refl 0

lemma wdTaxableAmount_le (rem txb : ℚ) (hx : 0 ≤ txb) :
    wdTaxableAmount rem txb ≤ txb := by
  unfold wdTaxableAmount
  split_ifs with h
  · exact min_le_right _ _
  · exact hx

lemma withdrawPhase_taxDeferred (e n t r x : ℚ) :
    (withdrawPhase e n t r x).taxDeferredBalance
      = t - (withdrawPhase e n t r x).wTaxDeferred := by
  unfold withdrawPhase
  split_ifs <;> simp

lemma withdrawPhase_roth (e n t r x : ℚ) :
    (withdrawPhase e n t r x).rothBalance
      = r - (withdrawPhase e n t r x).wRoth := by
  unfold withdrawPhase
  split_ifs <;> simp

lemma withdrawPhase_taxable (e n t r x : ℚ) :
    (withdrawPhase e n t r x).taxableBalance
      = x - (withdrawPhase e n t r x).wTaxable := by
  unfold withdrawPhase
  split_ifs <;> simp

lemma withdrawPhase_totalWithdrawal_eq (e n t r x : ℚ) :
    (withdrawPhase e n t r x).totalWithdrawal
      = (withdrawPhase e n t r x).wTaxDeferred
        + (withdrawPhase e n t r x).wRoth
        + (withdrawPhase e n t r x).wTaxable := by
  unfold withdrawPhase
  split_ifs <;> simp

lemma withdrawPhase_totalTaxes_eq (e n t r x : ℚ) :
    (withdrawPhase e n t r x).totalTaxes
      = (withdrawPhase e n t r x).wTaxDeferred * e
        + (withdrawPhase e n t r x).wTaxable * (15 / 100) := by
  unfold withdrawPhase
  split_ifs <;> simp

lemma withdrawPhase_w_nonneg (e n t r x : ℚ) (hn : 0 ≤ n) :
    0 ≤ (withdrawPhase e n t r x).wTaxDeferred ∧
    0 ≤ (withdrawPhase e n t r x).wRoth ∧
    0 ≤ (withdrawPhase e n t r x).wTaxable := by
  unfold withdrawPhase
  split_ifs
  · dsimp only
    exact ⟨wdTaxDeferredAmount_nonneg _ _ hn, wdRothAmount_nonneg _ _,
      wdTaxableAmount_nonneg _ _⟩
  · exact ⟨le_refl 0, le_refl 0, le_refl 0⟩

lemma withdrawPhase_w_le (e n t r x : ℚ) (ht : 0 ≤ t) (hr : 0 ≤ r)
    (hx : 0 ≤ x) :
    (withdrawPhase e n t r x).wTaxDeferred ≤ t ∧
    (withdrawPhase e n t r x).wRoth ≤ r ∧
    (withdrawPhase e n t r x).wTaxable ≤ x := by
  unfold withdrawPhase
  split_ifs
  · dsimp only
    exact ⟨wdTaxDeferredAmount_le _ _ ht, wdRothAmount_le _ _ hr,
      wdTaxableAmount_le _ _ hx⟩
  · exact ⟨ht, hr, hx⟩

lemma withdrawPhase_balances_nonneg (e n t r x : ℚ)
    (ht : 0 ≤ t) (hr : 0 ≤ r) (hx : 0 ≤ x) :
    0 ≤ (withdrawPhase e n t r x).taxDeferredBalance ∧
    0 ≤ (withdrawPhase e n t r x).rothBalance ∧
    0 ≤ (withdrawPhase e n t r x).taxableBalance := by
  obtain ⟨l1, l2, l3⟩ := withdrawPhase_w_le e n t r x ht hr hx
  rw [withdrawPhase_taxDeferred, withdrawPhase_roth, withdrawPhase_taxable]
  exact ⟨by linarith, by linarith, by linarith⟩

lemma step_depleted (inp : Inputs) (year : ℕ) (st : EngineState)
    (h : st.taxDeferredBalance + st.rothBalance + st.taxableBalance ≤ 0) :
    step inp year st = (zeroRec,
      ⟨st.taxDeferredBalance, st.rothBalance, st.taxableBalance,
        updatedSpending inp year st⟩) := by
  simp only [step]
  rw [if_pos h]

lemma step_active (inp : Inputs) (year : ℕ) (st : EngineState)
    (h : ¬ st.taxDeferredBalance + st.rothBalance + st.taxableBalance ≤ 0) :
    step inp year st =
      (⟨(withdrawPhase inp.effectiveTaxRate (netSpendingNeed inp year st)
            st.taxDeferredBalance st.rothBalance st.taxableBalance).totalWithdrawal,
        (withdrawPhase inp.effectiveTaxRate (netSpendingNeed inp year st)
            st.taxDeferredBalance st.rothBalance st.taxableBalance).totalTaxes,
        (withdrawPhase inp.effectiveTaxRate (netSpendingNeed inp year st)
            st.taxDeferredBalance st.rothBalance st.taxableBalance).totalWithdrawal
          - (withdrawPhase inp.effectiveTaxRate (netSpendingNeed inp year st)
              st.taxDeferredBalance st.rothBalance st.taxableBalance).totalTaxes
          + totalIncome inp,
        (withdrawPhase inp.effectiveTaxRate (netSpendingNeed inp year st)
            st.taxDeferredBalance st.rothBalance st.taxableBalance).taxDeferredBalance
          * (1 + inp.rateOfReturn),
        (withdrawPhase inp.effectiveTaxRate (netSpendingNeed inp year st)
            st.taxDeferredBalance st.rothBalance st.taxableBalance).rothBalance
          * (1 + inp.rateOfReturn),
        (withdrawPhase inp.effectiveTaxRate (netSpendingNeed inp year st)
            st.taxDeferredBalance st.rothBalance st.taxableBalance).taxableBalance
          * (1 + inp.rateOfReturn),
        (withdrawPhase inp.effectiveTaxRate (netSpendingNeed inp year st)
            st.taxDeferredBalance st.rothBalance st.taxableBalance).taxDeferredBalance
          * (1 + inp.rateOfReturn)
          + (withdrawPhase inp.effectiveTaxRate (netSpendingNeed inp year st)
              st.taxDeferredBalance st.rothBalance st.taxableBalance).rothBalance
            * (1 + inp.rateOfReturn)
          + (withdrawPhase inp.effectiveTaxRate (netSpendingNeed inp year st)
              st.taxDeferredBalance st.rothBalance st.taxableBalance).taxableBalance
            * (1 + inp.rateOfReturn),
        (withdrawPhase inp.effectiveTaxRate (netSpendingNeed inp year st)
            st.taxDeferredBalance st.rothBalance st.taxableBalance).totalWithdrawal
          / (st.taxDeferredBalance + st.rothBalance + st.taxableBalance) * 100,
        ((withdrawPhase inp.effectiveTaxRate (netSpendingNeed inp year st)
            st.taxDeferredBalance st.rothBalance st.taxableBalance).totalWithdrawal
          - (withdrawPhase inp.effectiveTaxRate (netSpendingNeed inp year st)
              st.taxDeferredBalance st.rothBalance st.taxableBalance).totalTaxes
          + totalIncome inp) / 12⟩,
       ⟨(withdrawPhase inp.effectiveTaxRate (netSpendingNeed inp year st)
            st.taxDeferredBalance st.rothBalance st.taxableBalance).taxDeferredBalance
          * (1 + inp.rateOfReturn),
        (withdrawPhase inp.effectiveTaxRate (netSpendingNeed inp year st)
            st.taxDeferredBalance st.rothBalance st.taxableBalance).rothBalance
          * (1 + inp.rateOfReturn),
        (withdrawPhase inp.effectiveTaxRate (netSpendingNeed inp year st)
            st.taxDeferredBalance st.rothBalance st.taxableBalance).taxableBalance
          * (1 + inp.rateOfReturn),
        updatedSpending inp year st⟩) := by
  have htb : 0 < st.taxDeferredBalance + st.rothBalance + st.taxableBalance :=
    not_le.mp h
  simp only [step]
  rw [if_neg h, if_pos htb]

lemma netSpendingNeed_nonneg (inp : Inputs) (year : ℕ) (st : EngineState) :
    0 ≤ netSpendingNeed inp year st :=
  le_max_left 0 _

lemma step_preserves_nonneg (inp : Inputs) (year : ℕ) (st : EngineState)
    (hrate : 0 ≤ inp.rateOfReturn) (hst : NonnegBalances st) :
    NonnegBalances (step inp year st).2 := by
  obtain ⟨h1, h2, h3⟩ := hst
  by_cases h : st.taxDeferredBalance + st.rothBalance + st.taxableBalance ≤ 0
  · rw [step_depleted inp year st h]
    exact ⟨h1, h2, h3⟩
  · rw [step_active inp year st h]
    obtain ⟨b1, b2, b3⟩ := withdrawPhase_balances_nonneg inp.effectiveTaxRate
      (netSpendingNeed inp year st) st.taxDeferredBalance st.rothBalance
      st.taxableBalance h1 h2 h3
    exact ⟨mul_nonneg b1 (by linarith), mul_nonneg b2 (by linarith),
      mul_nonneg b3 (by linarith)⟩

lemma stateAt_nonneg (inp : Inputs) (hrate : 0 ≤ inp.rateOfReturn)
    (h1 : 0 ≤ inp.startingTaxDeferred) (h2 : 0 ≤ inp.startingRoth)
    (h3 : 0 ≤ inp.startingTaxable) :
    ∀ y, NonnegBalances (stateAt inp y) := by
  intro y
  induction y with
  | zero => exact ⟨h1, h2, h3⟩
  | succ n ih => exact step_preserves_nonneg inp n (stateAt inp n) hrate ih

lemma validInputs_parts {inp : Inputs} (h : ValidInputs inp) :
    0 ≤ inp.rateOfReturn ∧ 0 ≤ inp.effectiveTaxRate ∧
    inp.effectiveTaxRate ≤ 1 ∧ 0 ≤ inp.startingTaxDeferred ∧
    0 ≤ inp.startingRoth ∧ 0 ≤ inp.startingTaxable ∧
    0 ≤ inp.pensionIncome ∧ 0 ≤ inp.annuityIncome ∧
    0 ≤ inp.socialSecurity ∧ 1 ≤ inp.projectionYears := by
  obtain ⟨a1, a2, a3, a4, a5, a6, a7, a8, a9, a10, a11, a12, a13, a14, a15,
    a16, a17⟩ := h
  exact ⟨a1, a7, by linarith, a9, a10, a11, a15, a16, a17, a13⟩

lemma step_rec_nonneg (inp : Inputs) (year : ℕ) (st : EngineState)
    (hrate : 0 ≤ inp.rateOfReturn)
    (he0 : 0 ≤ inp.effectiveTaxRate) (he1 : inp.effectiveTaxRate ≤ 1)
    (hp : 0 ≤ inp.pensionIncome) (ha : 0 ≤ inp.annuityIncome)
    (hs : 0 ≤ inp.socialSecurity) (hst : NonnegBalances st) :
    0 ≤ (step inp year st).1.withdrawal ∧
    0 ≤ (step inp year st).1.taxes ∧
    0 ≤ (step inp year st).1.netSpending ∧
    0 ≤ (step inp year st).1.taxDeferredBalance ∧
    0 ≤ (step inp year st).1.rothBalance ∧
    0 ≤ (step inp year st).1.taxableBalance ∧
    0 ≤ (step inp year st).1.totalBalance ∧
    0 ≤ (step inp year st).1.percentWithdrawn ∧
    0 ≤ (step inp year st).1.monthlyNet := by
  obtain ⟨h1, h2, h3⟩ := hst
  have hinc : 0 ≤ totalIncome inp := by
    unfold totalIncome; linarith
  by_cases h : st.taxDeferredBalance + st.rothBalance + st.taxableBalance ≤ 0
  · rw [step_depleted inp year st h]
    simp [zeroRec]
  · have htb : 0 < st.taxDeferredBalance + st.rothBalance + st.taxableBalance :=
      not_le.mp h
    rw [step_active inp year st h]
    dsimp only
    have hn := netSpendingNeed_nonneg inp year st
    obtain ⟨w1, w2, w3⟩ := withdrawPhase_w_nonneg inp.effectiveTaxRate
      (netSpendingNeed inp year st) st.taxDeferredBalance st.rothBalance
      st.taxableBalance hn
    obtain ⟨b1, b2, b3⟩ := withdrawPhase_balances_nonneg inp.effectiveTaxRate
      (netSpendingNeed inp year st) st.taxDeferredBalance st.rothBalance
      st.taxableBalance h1 h2 h3
    have hW := withdrawPhase_totalWithdrawal_eq inp.effectiveTaxRate
      (netSpendingNeed inp year st) st.taxDeferredBalance st.rothBalance
      st.taxableBalance
    have hT := withdrawPhase_totalTaxes_eq inp.effectiveTaxRate
      (netSpendingNeed inp year st) st.taxDeferredBalance st.rothBalance
      st.taxableBalance
    have hprod1 : (withdrawPhase inp.effectiveTaxRate
        (netSpendingNeed inp year st) st.taxDeferredBalance st.rothBalance
        st.taxableBalance).wTaxDeferred * inp.effectiveTaxRate
        ≤ (withdrawPhase inp.effectiveTaxRate (netSpendingNeed inp year st)
            st.taxDeferredBalance st.rothBalance st.taxableBalance).wTaxDeferred :=
      mul_le_of_le_one_right w1 he1
    have hprod2 : (withdrawPhase inp.effectiveTaxRate
        (netSpendingNeed inp year st) st.taxDeferredBalance st.rothBalance
        st.taxableBalance).wTaxable * (15 / 100)
        ≤ (withdrawPhase inp.effectiveTaxRate (netSpendingNeed inp year st)
            st.taxDeferredBalance st.rothBalance st.taxableBalance).wTaxable :=
      mul_le_of_le_one_right w3 (by norm_num)
    have hq1 : (0 : ℚ) ≤ (withdrawPhase inp.effectiveTaxRate
        (netSpendingNeed inp year st) st.taxDeferredBalance st.rothBalance
        st.taxableBalance).wTaxDeferred * inp.effectiveTaxRate :=
      mul_nonneg w1 he0
    have hq2 : (0 : ℚ) ≤ (withdrawPhase inp.effectiveTaxRate
        (netSpendingNeed inp year st) st.taxDeferredBalance st.rothBalance
        st.taxableBalance).wTaxable * (15 / 100) :=
      mul_nonneg w3 (by norm_num)
    refine ⟨by linarith, by linarith, by linarith,
      mul_nonneg b1 (by linarith), mul_nonneg b2 (by linarith),
      mul_nonneg b3 (by linarith), ?_, ?_, ?_⟩
    · have g1 : (0 : ℚ) ≤ (withdrawPhase inp.effectiveTaxRate
          (netSpendingNeed inp year st) st.taxDeferredBalance st.rothBalance
          st.taxableBalance).taxDeferredBalance * (1 + inp.rateOfReturn) :=
        mul_nonneg b1 (by linarith)
      have g2 : (0 : ℚ) ≤ (withdrawPhase inp.effectiveTaxRate
          (netSpendingNeed inp year st) st.taxDeferredBalance st.rothBalance
          st.taxableBalance).rothBalance * (1 + inp.rateOfReturn) :=
        mul_nonneg b2 (by linarith)
      have g3 : (0 : ℚ) ≤ (withdrawPhase inp.effectiveTaxRate
          (netSpendingNeed inp year st) st.taxDeferredBalance st.rothBalance
          st.taxableBalance).taxableBalance * (1 + inp.rateOfReturn) :=
        mul_nonneg b3 (by linarith)
      linarith
    · exact mul_nonneg (div_nonneg (by linarith) htb.le) (by norm_num)
    · exact div_nonneg (by linarith) (by norm_num)

lemma step_zero_state (inp : Inputs) (year : ℕ) (st : EngineState)
    (h1 : st.taxDeferredBalance = 0) (h2 : st.rothBalance = 0)
    (h3 : st.taxableBalance = 0) :
    (step inp year st).1 = zeroRec ∧
    (step inp year st).2.taxDeferredBalance = 0 ∧
    (step inp year st).2.rothBalance = 0 ∧
    (step inp year st).2.taxableBalance = 0 := by
  have h : st.taxDeferredBalance + st.rothBalance + st.taxableBalance ≤ 0 := by
    rw [h1, h2, h3]; norm_num
  rw [step_depleted inp year st h]
  exact ⟨rfl, h1, h2, h3⟩

lemma step_total_zero (inp : Inputs) (year : ℕ) (st : EngineState)
    (hrate : 0 ≤ inp.rateOfReturn) (hst : NonnegBalances st)
    (h : (step inp year st).1.totalBalance = 0) :
    (step inp year st).2.taxDeferredBalance = 0 ∧
    (step inp year st).2.rothBalance = 0 ∧
    (step inp year st).2.taxableBalance = 0 := by
  obtain ⟨h1, h2, h3⟩ := hst
  obtain ⟨s1, s2, s3⟩ := step_preserves_nonneg inp year st hrate ⟨h1, h2, h3⟩
  by_cases hdep : st.taxDeferredBalance + st.rothBalance + st.taxableBalance ≤ 0
  · rw [step_depleted inp year st hdep]
    dsimp only
    exact ⟨by linarith, by linarith, by linarith⟩
  · rw [step_active inp year st hdep] at h s1 s2 s3 ⊢
    dsimp only at h s1 s2 s3 ⊢
    exact ⟨by linarith, by linarith, by linarith⟩

lemma stateAt_zero_propagate (inp : Inputs) (i : ℕ)
    (h1 : (stateAt inp i).taxDeferredBalance = 0)
    (h2 : (stateAt inp i).rothBalance = 0)
    (h3 : (stateAt inp i).taxableBalance = 0) :
    ∀ k, (stateAt inp (i + k)).taxDeferredBalance = 0 ∧
      (stateAt inp (i + k)).rothBalance = 0 ∧
      (stateAt inp (i + k)).taxableBalance = 0 := by
  intro k
  induction k with
  | zero => exact ⟨h1, h2, h3⟩
  | succ n ih =>
    obtain ⟨z1, z2, z3⟩ := ih
    have hz := step_zero_state inp (i + n) (stateAt inp (i + n)) z1 z2 z3
    exact ⟨hz.2.1, hz.2.2.1, hz.2.2.2⟩

lemma step_snd_spending (inp : Inputs) (year : ℕ) (st : EngineState) :
    (step inp year st).2.currentSpending = updatedSpending inp year st := by
  by_cases h : st.taxDeferredBalance + st.rothBalance + st.taxableBalance ≤ 0
  · rw [step_depleted inp year st h]
  · rw [step_active inp year st h]

lemma stateAt_spending (inp : Inputs) :
    ∀ y, (stateAt inp y).currentSpending
      = if y = 0 then inp.yearlySpend
        else inp.yearlySpend * (1 + inp.inflationRate) ^ (y - 1) := by
  intro y
  induction y with
  | zero => rfl
  | succ n ih =>
    have hs : (stateAt inp (n + 1)).currentSpending
        = updatedSpending inp n (stateAt inp n) :=
      step_snd_spending inp n (stateAt inp n)
    rw [hs]
    unfold updatedSpending
    cases n with
    | zero => simp at ih ⊢; rw [ih]
    | succ m =>
      rw [if_pos (Nat.succ_pos m)]
      rw [ih]
      rw [if_neg (Nat.succ_ne_zero m)]
      rw [if_neg (Nat.succ_ne_zero (m + 1))]
      rw [Nat.succ_sub_one, Nat.succ_sub_one]
      ring

lemma withdrawPhase_td_branch (e n t r x : ℚ) (ht : 0 < t)
    (hs : n ≤ t + r + x) :
    withdrawPhase e n t r x
      = ⟨t - min n t, r, x, min n t, 0, 0, min n t, min n t * e⟩ := by
  unfold withdrawPhase wdTaxDeferredAmount remAfterTaxDeferred wdRothAmount
    wdTaxableAmount
  rw [if_pos hs]
  dsimp only
  rw [if_pos ht, if_pos ht]
  simp

lemma withdrawPhase_insufficient (e n t r x : ℚ) (h : ¬ n ≤ t + r + x) :
    withdrawPhase e n t r x = ⟨t, r, x, 0, 0, 0, 0, 0⟩ := by
  unfold withdrawPhase
  rw [if_neg h]

end Helpers

/-- C5: on the concrete input (return 0, inflation 0, spend 40000, tax
rate 13%, tax-deferred 1000000, other balances 0, one year, no external
income, no one-time spend) the single year-0 record has
grossWithdrawal = 40000, taxesPaid = 5200, netSpendingAvailable = 34800
and endingTaxDeferredBalance = 960000: the source's "withdrawal = spend
need, tax subtracted from it" policy.  (The record also has ending total
960000, percent withdrawn 4 and monthly net 2900.) -/
theorem c5_zero_income_single_account_scenario :
    runProjection c5Input
      = [⟨40000, 5200, 34800, 960000, 0, 0, 960000, 4, 2900⟩] := by
  have e1 : runProjection c5Input
      = (step c5Input 0 (initState c5Input)).1
        :: runFrom c5Input 1 0 (step c5Input 0 (initState c5Input)).2 := rfl
  rw [e1, show runFrom c5Input 1 0 (step c5Input 0 (initState c5Input)).2
    = [] from rfl]
  norm_num [step, initState, c5Input, updatedSpending, totalSpendingThisYear,
    netSpendingNeed, totalIncome, withdrawPhase, wdTaxDeferredAmount,
    remAfterTaxDeferred, wdRothAmount, wdTaxableAmount, zeroRec,
    max_def, min_def]

/-- C1 counterexample: an input whose starting balances sum to 0 is
flagged by `validateInputs`, yet `runProjection` does not fail — it has
no error channel at all — and returns a fully computed two-record
result sequence for it, contradicting "raises a ParameterError
synchronously before computing any year record, and never returns a
result sequence for such inputs". -/
theorem c1_counterexample :
    validateInputs c1BadInput
      = ["Total starting balance must be greater than 0"] ∧
    runProjection c1BadInput = [zeroRec, zeroRec] := by
  constructor
  · norm_num [validateInputs, c1BadInput]
  · have e1 : runProjection c1BadInput
        = (step c1BadInput 0 (initState c1BadInput)).1
          :: (step c1BadInput 1
                (step c1BadInput 0 (initState c1BadInput)).2).1
          :: [] := rfl
    rw [e1]
    norm_num [step, initState, c1BadInput, updatedSpending,
      totalSpendingThisYear, netSpendingNeed, totalIncome, zeroRec]

/-- C1 amended: the documented validation conditions live in
`validateInputs`, which returns error messages (non-empty here, shown
for the balances-sum-to-0 condition), but it is never invoked on the
projection path: `runProjection` performs no validation, raises
nothing, and returns a fully computed sequence of `projectionYears`
records even for such invalid inputs. -/
theorem c1_engine_never_validates (inp : Inputs)
    (h : inp.startingTaxDeferred + inp.startingRoth + inp.startingTaxable
      ≤ 0) :
    "Total starting balance must be greater than 0" ∈ validateInputs inp ∧
    (runProjection inp).length = inp.projectionYears.toNat := by
  constructor
  · unfold validateInputs
    rw [if_pos h]
    simp
  · exact runProjection_length inp

/-- C1 witness: the amended statement instantiated at the concrete
all-balances-zero input. -/
theorem c1_engine_never_validates_witness :
    "Total starting balance must be greater than 0"
      ∈ validateInputs c1BadInput ∧
    (runProjection c1BadInput).length = c1BadInput.projectionYears.toNat :=
  c1_engine_never_validates c1BadInput (by norm_num [c1BadInput])

/-- C10: for every valid parameter set the result sequence has exactly
`projectionYears` records; the loop never stops early on depletion (it
emits zero records instead), so the length never falls short. -/
theorem c10_result_length_exact (inp : Inputs) (h : ValidInputs inp) :
    ((runProjection inp).length : ℤ) = inp.projectionYears := by
  rw [runProjection_length]
  have hy := (validInputs_parts h).2.2.2.2.2.2.2.2.2
  omega

/-- C10 witness: instantiated at the concrete one-year scenario input. -/
theorem c10_result_length_exact_witness :
    ((runProjection c5Input).length : ℤ) = c5Input.projectionYears :=
  c10_result_length_exact c5Input (by norm_num [ValidInputs, c5Input])

/-- C6: the nominal spending need is `initialYearlySpend +
oneTimeAdditionalSpend` in year 0 and `initialYearlySpend ×
(1 + annualInflationRate)^y` for every later year y: strictly
compounding inflation from the fixed base, never re-compounding the
one-time addition. -/
theorem c6_inflation_compounds_from_fixed_base (inp : Inputs) (y : ℕ) :
    totalSpendingThisYear inp y (stateAt inp y)
      = if y = 0 then inp.yearlySpend + inp.addedSpend
        else inp.yearlySpend * (1 + inp.inflationRate) ^ y := by
  unfold totalSpendingThisYear updatedSpending
  cases y with
  | zero => simp [stateAt_spending]
  | succ m =>
    rw [if_neg (Nat.succ_ne_zero m), if_pos (Nat.succ_pos m),
      if_neg (Nat.succ_ne_zero m)]
    rw [stateAt_spending inp (m + 1), if_neg (Nat.succ_ne_zero m),
      Nat.succ_sub_one]
    ring

/-- C2: in a year where the beginning total balance covers the net cash
need and the tax-deferred balance is positive, the engine draws
`min(netCashNeed, taxDeferredBalance)` from the tax-deferred account
only, treats the need as fully satisfied (the Roth and taxable draws
are 0 even when that withdrawal is strictly below the need), and the
Roth and taxable balances are only grown, never drawn. -/
theorem c2_tax_deferred_draw_satisfies_need (inp : Inputs) (year : ℕ)
    (st : EngineState) (htd : 0 < st.taxDeferredBalance)
    (hro : 0 ≤ st.rothBalance) (htx : 0 ≤ st.taxableBalance)
    (hsuff : netSpendingNeed inp year st
      ≤ st.taxDeferredBalance + st.rothBalance + st.taxableBalance) :
    (step inp year st).1.withdrawal
      = min (netSpendingNeed inp year st) st.taxDeferredBalance ∧
    (withdrawPhase inp.effectiveTaxRate (netSpendingNeed inp year st)
      st.taxDeferredBalance st.rothBalance st.taxableBalance).wRoth = 0 ∧
    (withdrawPhase inp.effectiveTaxRate (netSpendingNeed inp year st)
      st.taxDeferredBalance st.rothBalance st.taxableBalance).wTaxable = 0 ∧
    (step inp year st).1.rothBalance
      = st.rothBalance * (1 + inp.rateOfReturn) ∧
    (step inp year st).1.taxableBalance
      = st.taxableBalance * (1 + inp.rateOfReturn) := by
  have hnle : ¬ st.taxDeferredBalance + st.rothBalance + st.taxableBalance
      ≤ 0 := by
    push_neg
    linarith
  have hwd := withdrawPhase_td_branch inp.effectiveTaxRate
    (netSpendingNeed inp year st) st.taxDeferredBalance st.rothBalance
    st.taxableBalance htd hsuff
  rw [step_active inp year st hnle]
  dsimp only
  rw [hwd]
  exact ⟨rfl, rfl, rfl, rfl, rfl⟩

/-- C2 witness: the claim instantiated at the initial state of the
three-account input, where the need (30000) is below the total balance
(60000) and the tax-deferred balance (20000) is positive — and indeed
only 20000 < 30000 is withdrawn. -/
theorem c2_tax_deferred_draw_satisfies_need_witness :
    (step threeAcctInput 0 (initState threeAcctInput)).1.withdrawal
      = min (netSpendingNeed threeAcctInput 0 (initState threeAcctInput))
          (initState threeAcctInput).taxDeferredBalance ∧
    (withdrawPhase threeAcctInput.effectiveTaxRate
      (netSpendingNeed threeAcctInput 0 (initState threeAcctInput))
      (initState threeAcctInput).taxDeferredBalance
      (initState threeAcctInput).rothBalance
      (initState threeAcctInput).taxableBalance).wRoth = 0 ∧
    (withdrawPhase threeAcctInput.effectiveTaxRate
      (netSpendingNeed threeAcctInput 0 (initState threeAcctInput))
      (initState threeAcctInput).taxDeferredBalance
      (initState threeAcctInput).rothBalance
      (initState threeAcctInput).taxableBalance).wTaxable = 0 ∧
    (step threeAcctInput 0 (initState threeAcctInput)).1.rothBalance
      = (initState threeAcctInput).rothBalance
        * (1 + threeAcctInput.rateOfReturn) ∧
    (step threeAcctInput 0 (initState threeAcctInput)).1.taxableBalance
      = (initState threeAcctInput).taxableBalance
        * (1 + threeAcctInput.rateOfReturn) :=
  c2_tax_deferred_draw_satisfies_need threeAcctInput 0
    (initState threeAcctInput)
    (by norm_num [initState, threeAcctInput])
    (by norm_num [initState, threeAcctInput])
    (by norm_num [initState, threeAcctInput])
    (by norm_num [netSpendingNeed, totalSpendingThisYear, updatedSpending,
      totalIncome, initState, threeAcctInput, max_def])

/-- C3: in a year where the beginning total balance is positive but
strictly below the net cash need, no withdrawal happens at all: the
withdrawal and taxes of the record are 0 and each ending account
balance is exactly its beginning balance times
(1 + annualReturnRate). -/
theorem c3_insufficient_balance_skips_withdrawal (inp : Inputs) (year : ℕ)
    (st : EngineState)
    (hpos : 0 < st.taxDeferredBalance + st.rothBalance + st.taxableBalance)
    (hlt : st.taxDeferredBalance + st.rothBalance + st.taxableBalance
      < netSpendingNeed inp year st) :
    (withdrawPhase inp.effectiveTaxRate (netSpendingNeed inp year st)
      st.taxDeferredBalance st.rothBalance st.taxableBalance).wTaxDeferred
      = 0 ∧
    (withdrawPhase inp.effectiveTaxRate (netSpendingNeed inp year st)
      st.taxDeferredBalance st.rothBalance st.taxableBalance).wRoth = 0 ∧
    (withdrawPhase inp.effectiveTaxRate (netSpendingNeed inp year st)
      st.taxDeferredBalance st.rothBalance st.taxableBalance).wTaxable
      = 0 ∧
    (step inp year st).1.withdrawal = 0 ∧
    (step inp year st).1.taxes = 0 ∧
    (step inp year st).1.taxDeferredBalance
      = st.taxDeferredBalance * (1 + inp.rateOfReturn) ∧
    (step inp year st).1.rothBalance
      = st.rothBalance * (1 + inp.rateOfReturn) ∧
    (step inp year st).1.taxableBalance
      = st.taxableBalance * (1 + inp.rateOfReturn) := by
  have hnle : ¬ st.taxDeferredBalance + st.rothBalance + st.taxableBalance
      ≤ 0 := not_le.mpr hpos
  have hwd := withdrawPhase_insufficient inp.effectiveTaxRate
    (netSpendingNeed inp year st) st.taxDeferredBalance st.rothBalance
    st.taxableBalance (not_le.mpr hlt)
  rw [step_active inp year st hnle]
  dsimp only
  rw [hwd]
  exact ⟨rfl, rfl, rfl, rfl, rfl, rfl, rfl, rfl⟩

/-- C3 witness: the claim instantiated at the initial state of the
short-balance input (balance 10000 against a 50000 need). -/
theorem c3_insufficient_balance_skips_withdrawal_witness :
    (withdrawPhase shortInput.effectiveTaxRate
      (netSpendingNeed shortInput 0 (initState shortInput))
      (initState shortInput).taxDeferredBalance
      (initState shortInput).rothBalance
      (initState shortInput).taxableBalance).wTaxDeferred = 0 ∧
    (withdrawPhase shortInput.effectiveTaxRate
      (netSpendingNeed shortInput 0 (initState shortInput))
      (initState shortInput).taxDeferredBalance
      (initState shortInput).rothBalance
      (initState shortInput).taxableBalance).wRoth = 0 ∧
    (withdrawPhase shortInput.effectiveTaxRate
      (netSpendingNeed shortInput 0 (initState shortInput))
      (initState shortInput).taxDeferredBalance
      (initState shortInput).rothBalance
      (initState shortInput).taxableBalance).wTaxable = 0 ∧
    (step shortInput 0 (initState shortInput)).1.withdrawal = 0 ∧
    (step shortInput 0 (initState shortInput)).1.taxes = 0 ∧
    (step shortInput 0 (initState shortInput)).1.taxDeferredBalance
      = (initState shortInput).taxDeferredBalance
        * (1 + shortInput.rateOfReturn) ∧
    (step shortInput 0 (initState shortInput)).1.rothBalance
      = (initState shortInput).rothBalance
        * (1 + shortInput.rateOfReturn) ∧
    (step shortInput 0 (initState shortInput)).1.taxableBalance
      = (initState shortInput).taxableBalance
        * (1 + shortInput.rateOfReturn) :=
  c3_insufficient_balance_skips_withdrawal shortInput 0
    (initState shortInput)
    (by norm_num [initState, shortInput])
    (by norm_num [netSpendingNeed, totalSpendingThisYear, updatedSpending,
      totalIncome, initState, shortInput, max_def])

/-- C7: in every (non-depleted) year the taxes of the record are exactly
the tax-deferred draw times `effectiveTaxRate` plus the taxable draw
times the fixed 15% rate — the Roth draw incurs no tax — and the gross
withdrawal is the sum of the three per-account draws. -/
theorem c7_taxes_are_per_account_sum (inp : Inputs) (year : ℕ)
    (st : EngineState)
    (hpos : 0 < st.taxDeferredBalance + st.rothBalance + st.taxableBalance) :
    (step inp year st).1.taxes
      = (withdrawPhase inp.effectiveTaxRate (netSpendingNeed inp year st)
          st.taxDeferredBalance st.rothBalance st.taxableBalance).wTaxDeferred
          * inp.effectiveTaxRate
        + (withdrawPhase inp.effectiveTaxRate (netSpendingNeed inp year st)
            st.taxDeferredBalance st.rothBalance st.taxableBalance).wTaxable
          * (15 / 100) ∧
    (step inp year st).1.withdrawal
      = (withdrawPhase inp.effectiveTaxRate (netSpendingNeed inp year st)
          st.taxDeferredBalance st.rothBalance st.taxableBalance).wTaxDeferred
        + (withdrawPhase inp.effectiveTaxRate (netSpendingNeed inp year st)
            st.taxDeferredBalance st.rothBalance st.taxableBalance).wRoth
        + (withdrawPhase inp.effectiveTaxRate (netSpendingNeed inp year st)
            st.taxDeferredBalance st.rothBalance st.taxableBalance).wTaxable := by
  have hnle : ¬ st.taxDeferredBalance + st.rothBalance + st.taxableBalance
      ≤ 0 := not_le.mpr hpos
  rw [step_active inp year st hnle]
  dsimp only
  exact ⟨withdrawPhase_totalTaxes_eq _ _ _ _ _,
    withdrawPhase_totalWithdrawal_eq _ _ _ _ _⟩

/-- C7 witness: the tax decomposition instantiated at the initial state
of the concrete one-year scenario. -/
theorem c7_taxes_are_per_account_sum_witness :
    (step c5Input 0 (initState c5Input)).1.taxes
      = (withdrawPhase c5Input.effectiveTaxRate
          (netSpendingNeed c5Input 0 (initState c5Input))
          (initState c5Input).taxDeferredBalance
          (initState c5Input).rothBalance
          (initState c5Input).taxableBalance).wTaxDeferred
          * c5Input.effectiveTaxRate
        + (withdrawPhase c5Input.effectiveTaxRate
            (netSpendingNeed c5Input 0 (initState c5Input))
            (initState c5Input).taxDeferredBalance
            (initState c5Input).rothBalance
            (initState c5Input).taxableBalance).wTaxable * (15 / 100) ∧
    (step c5Input 0 (initState c5Input)).1.withdrawal
      = (withdrawPhase c5Input.effectiveTaxRate
          (netSpendingNeed c5Input 0 (initState c5Input))
          (initState c5Input).taxDeferredBalance
          (initState c5Input).rothBalance
          (initState c5Input).taxableBalance).wTaxDeferred
        + (withdrawPhase c5Input.effectiveTaxRate
            (netSpendingNeed c5Input 0 (initState c5Input))
            (initState c5Input).taxDeferredBalance
            (initState c5Input).rothBalance
            (initState c5Input).taxableBalance).wRoth
        + (withdrawPhase c5Input.effectiveTaxRate
            (netSpendingNeed c5Input 0 (initState c5Input))
            (initState c5Input).taxDeferredBalance
            (initState c5Input).rothBalance
            (initState c5Input).taxableBalance).wTaxable :=
  c7_taxes_are_per_account_sum c5Input 0 (initState c5Input)
    (by norm_num [initState, c5Input])

/-- C8: for every valid parameter set, the beginning total balance of
year i+1 (the sum of the three account balances before that year's
withdrawal) equals the ending total balance recorded for year i. -/
theorem c8_balance_carry_forward (inp : Inputs) (hv : ValidInputs inp)
    (i : ℕ) (hi1 : i + 1 < (runProjection inp).length) :
    beginningTotalBalance inp (i + 1)
      = (runProjection inp)[i].totalBalance := by
  obtain ⟨hrate, he0, he1, hb1, hb2, hb3, hp, ha, hs, hy⟩ :=
    validInputs_parts hv
  have hi : i < (runProjection inp).length := by omega
  rw [runProjection_getElem inp i hi]
  obtain ⟨n1, n2, n3⟩ := stateAt_nonneg inp hrate hb1 hb2 hb3 i
  unfold beginningTotalBalance
  have hst1 : stateAt inp (i + 1) = (step inp i (stateAt inp i)).2 := rfl
  by_cases hdep : (stateAt inp i).taxDeferredBalance
      + (stateAt inp i).rothBalance + (stateAt inp i).taxableBalance ≤ 0
  · rw [hst1, step_depleted inp i (stateAt inp i) hdep]
    dsimp only [zeroRec]
    linarith
  · rw [hst1, step_active inp i (stateAt inp i) hdep]

/-- C8 witness: carry-forward at the depleting input between year 0 and
year 1. -/
theorem c8_balance_carry_forward_witness :
    beginningTotalBalance depleteInput 1
      = ((runProjection depleteInput).getD 0 zeroRec).totalBalance := by
  have hlen : 1 < (runProjection depleteInput).length := by
    rw [runProjection_length]
    norm_num [depleteInput]
  have h := c8_balance_carry_forward depleteInput
    (by norm_num [ValidInputs, depleteInput]) 0 hlen
  rw [List.getD_eq_getElem (runProjection depleteInput) zeroRec (by omega)]
  exact h

/-- C9: for every valid parameter set, every currency field of every
record in the result — withdrawal, taxes, net spending, the three
ending balances, the ending total, the percent withdrawn and the
monthly net — is nonnegative. -/
theorem c9_record_fields_nonneg (inp : Inputs) (hv : ValidInputs inp)
    (i : ℕ) (hi : i < (runProjection inp).length) :
    0 ≤ (runProjection inp)[i].withdrawal ∧
    0 ≤ (runProjection inp)[i].taxes ∧
    0 ≤ (runProjection inp)[i].netSpending ∧
    0 ≤ (runProjection inp)[i].taxDeferredBalance ∧
    0 ≤ (runProjection inp)[i].rothBalance ∧
    0 ≤ (runProjection inp)[i].taxableBalance ∧
    0 ≤ (runProjection inp)[i].totalBalance ∧
    0 ≤ (runProjection inp)[i].percentWithdrawn ∧
    0 ≤ (runProjection inp)[i].monthlyNet := by
  obtain ⟨hrate, he0, he1, hb1, hb2, hb3, hp, ha, hs, hy⟩ :=
    validInputs_parts hv
  rw [runProjection_getElem inp i hi]
  exact step_rec_nonneg inp i (stateAt inp i) hrate he0 he1 hp ha hs
    (stateAt_nonneg inp hrate hb1 hb2 hb3 i)

/-- C9 witness: nonnegativity of the single record of the concrete
one-year scenario. -/
theorem c9_record_fields_nonneg_witness :
    0 ≤ ((runProjection c5Input).getD 0 zeroRec).withdrawal ∧
    0 ≤ ((runProjection c5Input).getD 0 zeroRec).taxes ∧
    0 ≤ ((runProjection c5Input).getD 0 zeroRec).netSpending ∧
    0 ≤ ((runProjection c5Input).getD 0 zeroRec).taxDeferredBalance ∧
    0 ≤ ((runProjection c5Input).getD 0 zeroRec).rothBalance ∧
    0 ≤ ((runProjection c5Input).getD 0 zeroRec).taxableBalance ∧
    0 ≤ ((runProjection c5Input).getD 0 zeroRec).totalBalance ∧
    0 ≤ ((runProjection c5Input).getD 0 zeroRec).percentWithdrawn ∧
    0 ≤ ((runProjection c5Input).getD 0 zeroRec).monthlyNet := by
  have hlen : 0 < (runProjection c5Input).length := by
    rw [runProjection_length]
    norm_num [c5Input]
  have h := c9_record_fields_nonneg c5Input
    (by norm_num [ValidInputs, c5Input]) 0 hlen
  rw [List.getD_eq_getElem (runProjection c5Input) zeroRec hlen]
  exact h

/-- C4: for every valid parameter set, once a record's ending total
balance is 0, every later record also has ending total balance 0, gross
withdrawal 0 and taxes 0: depletion is absorbing. -/
theorem c4_depletion_is_absorbing (inp : Inputs) (hv : ValidInputs inp)
    (i j : ℕ) (hij : i < j) (hj : j < (runProjection inp).length)
    (hz : (runProjection inp)[i].totalBalance = 0) :
    (runProjection inp)[j].totalBalance = 0 ∧
    (runProjection inp)[j].withdrawal = 0 ∧
    (runProjection inp)[j].taxes = 0 := by
  obtain ⟨hrate, he0, he1, hb1, hb2, hb3, hp, ha, hs, hy⟩ :=
    validInputs_parts hv
  have hi : i < (runProjection inp).length := by omega
  rw [runProjection_getElem inp i hi] at hz
  rw [runProjection_getElem inp j hj]
  have hnn := stateAt_nonneg inp hrate hb1 hb2 hb3 i
  obtain ⟨z1, z2, z3⟩ := step_total_zero inp i (stateAt inp i) hrate hnn hz
  have hzs := stateAt_zero_propagate inp (i + 1) z1 z2 z3 (j - (i + 1))
  rw [show i + 1 + (j - (i + 1)) = j from by omega] at hzs
  obtain ⟨y1, y2, y3⟩ := hzs
  have hzr := step_zero_state inp j (stateAt inp j) y1 y2 y3
  rw [hzr.1]
  exact ⟨rfl, rfl, rfl⟩

/-- C4 witness: at the depleting input, year 0 ends at balance 0 and
year 1's record is all zero. -/
theorem c4_depletion_is_absorbing_witness :
    ((runProjection depleteInput).getD 1 zeroRec).totalBalance = 0 ∧
    ((runProjection depleteInput).getD 1 zeroRec).withdrawal = 0 ∧
    ((runProjection depleteInput).getD 1 zeroRec).taxes = 0 := by
  have hlen : 1 < (runProjection depleteInput).length := by
    rw [runProjection_length]
    norm_num [depleteInput]
  have h0 : (runProjection depleteInput)[0].totalBalance = 0 := by
    rw [runProjection_getElem depleteInput 0 (by omega)]
    norm_num [step, stateAt, initState, depleteInput, updatedSpending,
      totalSpendingThisYear, netSpendingNeed, totalIncome, withdrawPhase,
      wdTaxDeferredAmount, remAfterTaxDeferred, wdRothAmount,
      wdTaxableAmount, max_def, min_def]
  have h := c4_depletion_is_absorbing depleteInput
    (by norm_num [ValidInputs, depleteInput]) 0 1 (by omega) hlen h0
  rw [List.getD_eq_getElem (runProjection depleteInput) zeroRec hlen]
  exact h
